import Mathlib

/-! Verification development for the socket HTTP server (src/http_server.py).

Byte strings are modelled as `List Char`: the server decodes the incoming
request as text, and every response is assembled by `bytes.join` from
ASCII literals together with raw file bytes, so a list of characters is a
faithful carrier for both sides.

The operating-system facilities the server consults (`os.path.exists`,
`os.path.isdir`, `os.listdir`, `open(...).read()`,
`mimetypes.guess_type`) are modelled as an explicit `FileSystem` record
of oracles; `response_path` is then a function of that record and the
request path, exactly following the source.  Python exceptions become an
`Except PyErr` result: the two exception classes the per-request handler
catches (`NotImplementedError`, `NameError`) and the two it lets escape
to the bare per-connection handler (`ValueError` from tuple unpacking,
`AttributeError` from `None.encode`). -/

namespace HttpSrv

/-- The CRLF line terminator `"\r\n"` as characters. -/
def CRLF : List Char := ['\r', '\n']

/-- The header-block terminator `"\r\n\r\n"` as characters. -/
def CRLF2 : List Char := ['\r', '\n', '\r', '\n']

/-- `leads p s` holds when `p` is an initial run of `s` (the analogue of
Python `s.startswith(p)`), used to locate substring occurrences. -/
def leads : List Char → List Char → Bool
  | [], _ => true
  | _ :: _, [] => false
  | p :: ps, s :: ss => p == s && leads ps ss

/-- `occursB sep s` holds when `sep` occurs contiguously inside `s`
(the analogue of Python `sep in s`). -/
def occursB (sep : List Char) : List Char → Bool
  | [] => leads sep []
  | c :: t => leads sep (c :: t) || occursB sep t

/-- Split `s` at the first occurrence of `sep`, returning the part before
and the part after; `none` when `sep` does not occur.  This is the
behaviour of `s.split(sep)[0]` paired with the remainder. -/
def splitFirst (sep : List Char) : List Char → Option (List Char × List Char)
  | [] => if leads sep [] then some ([], []) else none
  | c :: t =>
    if leads sep (c :: t) then some ([], (c :: t).drop sep.length)
    else
      match splitFirst sep t with
      | some (h, b) => some (c :: h, b)
      | none => none

/-- The text before the first occurrence of `sep`, or all of `s` when
`sep` does not occur: Python `s.split(sep)[0]`. -/
def takeBefore (sep s : List Char) : List Char :=
  match splitFirst sep s with
  | some (h, _) => h
  | none => s

/-- Python `s.split(" ")` with an explicit single-character separator:
splits at every occurrence and keeps empty pieces.  The result is never
empty. -/
def splitChar (c : Char) : List Char → List (List Char)
  | [] => [[]]
  | a :: t =>
    if a == c then [] :: splitChar c t
    else (splitChar c t).modifyHead (fun l => a :: l)

/-- Python `sep.join(pieces)`. -/
def joinBy (sep : List Char) : List (List Char) → List Char
  | [] => []
  | [x] => x
  | x :: y :: t => x ++ sep ++ joinBy sep (y :: t)

/-- The Python exceptions that can arise inside the per-request `try`
block of `server`: the two it catches and the two that escape to the
bare per-connection `except`. -/
inductive PyErr
  | notImplementedError
  | nameError
  | valueError
  | attributeError
deriving DecidableEq

/-- `response_ok` (src/http_server.py lines 29-50): joins the status
line, the `Content-Type` header, an empty line and the body with CRLF. -/
def response_ok (body mimetype : List Char) : List Char :=
  joinBy CRLF
    ["HTTP/1.1 200 OK".data,
     "Content-Type: ".data ++ mimetype,
     [],
     body]

/-- `response_method_not_allowed` (lines 53-59): the fixed 405 bytes. -/
def response_method_not_allowed : List Char :=
  joinBy CRLF
    ["HTTP/1.1 405 Method Not Allowed".data,
     [],
     "You can\x27t do that on this server!".data]

/-- `response_not_found` (lines 62-68): the fixed 404 bytes. -/
def response_not_found : List Char :=
  joinBy CRLF
    ["HTTP/1.1 404 Page Not Found".data,
     [],
     "Sorry, the page that you\x27re requesting does not exist.".data]

/-- `parse_request` (lines 71-82).  `request.split("\r\n")[0]` is the
text before the first CRLF; `.split(" ")` splits that on every single
space; unpacking `method, path, version` raises `ValueError` unless the
list has exactly three items; a non-`GET` method raises
`NotImplementedError`; otherwise the path token is returned verbatim. -/
def parse_request (request : List Char) : Except PyErr (List Char) :=
  match splitChar ' ' (takeBefore CRLF request) with
  | [method, path, _version] =>
    if method = "GET".data then .ok path else .error .notImplementedError
  | _ => .error .valueError

/-- The operating-system oracles `response_path` consults, plus the
served root `directory` (the absolute `.../webroot` computed on line
112).  `fsExists` models `os.path.exists`, `isdir` models
`os.path.isdir`, `listdir` models `os.listdir`, `readFile` models
`open(full_path, "rb").read()`, and `guessType` models
`mimetypes.guess_type(full_path)[0]` (`none` when the extension is not
in the table). -/
structure FileSystem where
  root : List Char
  fsExists : List Char → Bool
  isdir : List Char → Bool
  listdir : List Char → List (List Char)
  readFile : List Char → List Char
  guessType : List Char → Option (List Char)

/-- `response_path` (lines 85-130): concatenates the served root with
the request path, raises `NameError` when nothing exists there, returns
the CRLF-joined `listdir` with `text/plain` for a directory, and for a
file returns its bytes with the guessed type — where
`guess_type(...)[0].encode` raises `AttributeError` when the guess is
`None` (an unknown extension). -/
def response_path (fs : FileSystem) (path : List Char) : Except PyErr (List Char × List Char) :=
  let full_path := fs.root ++ path
  if fs.fsExists full_path = false then .error .nameError
  else if fs.isdir full_path then
    .ok (joinBy CRLF (fs.listdir full_path), "text/plain".data)
  else
    match fs.guessType full_path with
    | none => .error .attributeError
    | some mt => .ok (fs.readFile full_path, mt)

/-- The per-request `try` block of `server` (lines 158-169) together
with what reaches `conn.sendall` (line 171): `NotImplementedError` is
answered with the 405 bytes, `NameError` with the 404 bytes, and any
other exception escapes to the bare per-connection `except` (line 172),
so nothing is written — modelled as `none`. -/
def handle_request (fs : FileSystem) (request : List Char) : Option (List Char) :=
  let result : Except PyErr (List Char) :=
    match parse_request request with
    | .error e => .error e
    | .ok path =>
      match response_path fs path with
      | .error e => .error e
      | .ok (content, mimetype) => .ok (response_ok content mimetype)
  match result with
  | .ok r => some r
  | .error .notImplementedError => some response_method_not_allowed
  | .error .nameError => some response_not_found
  | .error _ => none

/-- The header-reading loop of `server` (lines 148-154), step-indexed by
`fuel`.  `chunks` is the sequence of decoded `recv` results still to
arrive; once it is exhausted the peer has closed the connection and
`recv` returns the empty byte string on every further call.  The loop
breaks (returning the accumulated text) exactly when `"\r\n\r\n"` is a
substring of the accumulation; `none` means the loop has not finished
within `fuel` iterations. -/
def read_loop (fuel : Nat) (chunks : List (List Char)) (request : List Char) : Option (List Char) :=
  match fuel with
  | 0 => none
  | fuel + 1 =>
    let data := match chunks with | [] => [] | c :: _ => c
    let rest := match chunks with | [] => ([] : List (List Char)) | _ :: cs => cs
    let request := request ++ data
    if occursB CRLF2 request then some request
    else read_loop fuel rest request

/-- `parse_ok_response` reconstructs status line, `Content-Type` value and
body from wire bytes, for the round-trip property: headers are split from
the body at the first blank line (first `"\r\n\r\n"`), the status line is
the text before the first `"\r\n"` of the header block, and the mimetype
is the remainder of the `Content-Type` header line. -/
def parse_ok_response (resp : List Char) : Option (List Char × List Char × List Char) :=
  match splitFirst CRLF2 resp with
  | none => none
  | some (head, body) =>
    match splitFirst CRLF head with
    | none => none
    | some (status, ctline) =>
      if leads "Content-Type: ".data ctline then
        some (status, ctline.drop "Content-Type: ".data.length, body)
      else none

/-- A word is always an initial run of itself followed by anything. -/
theorem leads_append_self (p s : List Char) : leads p (p ++ s) = true := by
  induction p with
  | nil => rfl
  | cons a t ih => simp [leads, ih]

/-- `noEarlyFrom sep tail h` states that `sep` does not begin at any
position of `h` inside the composite string `h ++ tail` — the invariant
that drives `splitFirst` across `h` without firing. -/
def noEarlyFrom (sep tail : List Char) : List Char → Bool
  | [] => true
  | c :: t => !(leads sep (c :: t ++ tail)) && noEarlyFrom sep tail t

/-- `splitFirst` finds the seam exactly when no earlier occurrence of the
separator starts inside the prefix. -/
theorem splitFirst_noEarly (sep b h : List Char) (hsep : sep ≠ [])
    (hno : noEarlyFrom sep (sep ++ b) h = true) :
    splitFirst sep (h ++ (sep ++ b)) = some (h, b) := by
  induction h with
  | nil =>
    cases sep with
    | nil => exact absurd rfl hsep
    | cons s0 sep' =>
      show splitFirst (s0 :: sep') (s0 :: (sep' ++ b)) = some ([], b)
      have hl : leads (s0 :: sep') (s0 :: (sep' ++ b)) = true :=
        leads_append_self (s0 :: sep') b
      simp [splitFirst, hl, List.drop_left]
  | cons c h' ih =>
    rw [noEarlyFrom] at hno
    simp only [Bool.and_eq_true, Bool.not_eq_true'] at hno
    obtain ⟨h1, h2⟩ := hno
    rw [List.cons_append] at h1
    show splitFirst sep (c :: (h' ++ (sep ++ b))) = some (c :: h', b)
    rw [splitFirst]
    rw [if_neg (by simp [h1])]
    rw [ih h2]

/-- `noEarlyFrom` distributes over an append of the scanned prefix. -/
theorem noEarlyFrom_append (sep tail x y : List Char) :
    noEarlyFrom sep tail (x ++ y)
      = (noEarlyFrom sep (y ++ tail) x && noEarlyFrom sep tail y) := by
  induction x with
  | nil => simp [noEarlyFrom]
  | cons a x' ih => simp [noEarlyFrom, ih, List.append_assoc, Bool.and_assoc]

/-- A separator beginning with `'\r'` cannot start inside text that
contains no `'\r'` at all. -/
theorem noEarlyFrom_noCR (sep' tail h : List Char)
    (hcr : ∀ c ∈ h, c ≠ '\r') :
    noEarlyFrom ('\r' :: sep') tail h = true := by
  induction h with
  | nil => rfl
  | cons a t ih =>
    have ha : ('\r' == a) = false :=
      beq_eq_false_iff_ne.mpr (Ne.symm (hcr a (List.mem_cons_self a t)))
    have ht : ∀ c ∈ t, c ≠ '\r' := fun c hc => hcr c (List.mem_cons_of_mem a hc)
    simp [noEarlyFrom, leads, ha, ih ht]

/-- The header terminator cannot start inside a mimetype free of CRLF,
even against the terminator that follows it. -/
theorem noEarlyFrom_CRLF2_of_noCRLF (mt : List Char) (hm : occursB CRLF mt = false) :
    ∀ tl, noEarlyFrom CRLF2 (CRLF2 ++ tl) mt = true := by
  induction mt with
  | nil => intro tl; rfl
  | cons c t ih =>
    rw [occursB] at hm
    simp only [Bool.or_eq_false_iff] at hm
    obtain ⟨h1, h2⟩ := hm
    intro tl
    rw [noEarlyFrom]
    simp only [Bool.and_eq_true, Bool.not_eq_true']
    refine ⟨?_, ih h2 tl⟩
    by_cases hc : c = '\r'
    · subst hc
      simp only [CRLF, leads, beq_self_eq_true, Bool.true_and] at h1
      cases t with
      | nil =>
        have hrn : ('\n' == '\r') = false := by decide
        simp [CRLF2, leads, hrn]
      | cons d t' =>
        simp only [leads, Bool.and_true] at h1
        simp [CRLF2, leads, h1]
    · have hc' : ('\r' == c) = false := beq_eq_false_iff_ne.mpr (Ne.symm hc)
      simp [CRLF2, leads, hc']

/-- Splitting at a character that the first block avoids. -/
theorem splitChar_append_nomem (c : Char) (x y : List Char) (hx : ∀ a ∈ x, a ≠ c) :
    splitChar c (x ++ y) = (splitChar c y).modifyHead (fun l => x ++ l) := by
  induction x with
  | nil =>
    simp only [List.nil_append]
    cases splitChar c y with
    | nil => rfl
    | cons s ss => simp [List.modifyHead]
  | cons a x' ih =>
    have ha : (a == c) = false :=
      beq_eq_false_iff_ne.mpr (hx a (List.mem_cons_self a x'))
    have hx' : ∀ b ∈ x', b ≠ c := fun b hb => hx b (List.mem_cons_of_mem a hb)
    show splitChar c (a :: (x' ++ y)) = _
    rw [splitChar]
    rw [if_neg (by simp [ha])]
    rw [ih hx']
    cases splitChar c y with
    | nil => rfl
    | cons s ss => rfl

/-- Splitting at the character itself emits an empty piece. -/
theorem splitChar_cons_self (c : Char) (y : List Char) :
    splitChar c (c :: y) = [] :: splitChar c y := by
  simp [splitChar]

/-- Once the peer has closed the connection, `recv` keeps returning the
empty byte string, so an accumulation that lacks the header terminator
never gains it: the loop completes under no amount of fuel. -/
theorem read_loop_closed_none (acc : List Char) (hacc : occursB CRLF2 acc = false) :
    ∀ fuel, read_loop fuel [] acc = none := by
  intro fuel
  induction fuel with
  | zero => rfl
  | succ n ih =>
    show (if occursB CRLF2 (acc ++ []) then some (acc ++ []) else read_loop n [] (acc ++ [])) = none
    simp only [List.append_nil]
    rw [if_neg (by simp [hacc])]
    exact ih

/-- A filesystem with nothing under the served root. -/
def fsEmpty : FileSystem :=
  { root := "/srv/webroot".data
    fsExists := fun _ => false
    isdir := fun _ => false
    listdir := fun _ => []
    readFile := fun _ => []
    guessType := fun _ => none }

/-- A filesystem in which a file named `secret`, with content
`TOPSECRET`, lives beside the served root `/srv/webroot` rather than
under it.  `os.path.exists`, `mimetypes.guess_type` and `open` all
resolve the `..` segment, so the operating-system oracles answer for the
string `/srv/webroot/../secret` exactly as they would for
`/srv/secret` — an entity outside the served root. -/
def fsEscape : FileSystem :=
  { root := "/srv/webroot".data
    fsExists := fun q => q == "/srv/webroot/../secret".data || q == "/srv/webroot".data
    isdir := fun q => q == "/srv/webroot".data
    listdir := fun _ => []
    readFile := fun q => if q == "/srv/webroot/../secret".data then "TOPSECRET".data else []
    guessType := fun q =>
      if q == "/srv/webroot/../secret".data then some "text/plain".data else none }

/-- A filesystem holding one regular file `/srv/webroot/file.xyz` whose
extension is not in the MIME table (`guess_type` returns `None`). -/
def fsNoExt : FileSystem :=
  { root := "/srv/webroot".data
    fsExists := fun q => q == "/srv/webroot/file.xyz".data
    isdir := fun _ => false
    listdir := fun _ => []
    readFile := fun q => if q == "/srv/webroot/file.xyz".data then "DATA".data else []
    guessType := fun _ => none }

/-- A filesystem holding one regular file `/srv/webroot/index.html` with
a recognized extension. -/
def fsHtml : FileSystem :=
  { root := "/srv/webroot".data
    fsExists := fun q => q == "/srv/webroot/index.html".data
    isdir := fun _ => false
    listdir := fun _ => []
    readFile := fun q =>
      if q == "/srv/webroot/index.html".data then "<html>hi</html>".data else []
    guessType := fun q =>
      if q == "/srv/webroot/index.html".data then some "text/html".data else none }

/-- A filesystem in which the served root itself is a directory holding
the entries `a.html` and `b.png`. -/
def fsDir : FileSystem :=
  { root := "/srv/webroot".data
    fsExists := fun q => q == "/srv/webroot/".data
    isdir := fun q => q == "/srv/webroot/".data
    listdir := fun q => if q == "/srv/webroot/".data then ["a.html".data, "b.png".data] else []
    readFile := fun _ => []
    guessType := fun _ => none }

/-- C1: corrected to code_bug — the claim (and the spec) requires
traversal containment, but `response_path` concatenates the root with
the raw path and performs no containment check: for the request
`GET /../secret HTTP/1.1` against `fsEscape` the server answers 200 and
returns the bytes of the file outside the served root, not the 404 the
claim demands. -/
theorem traversal_request_served_outside_root :
    handle_request fsEscape "GET /../secret HTTP/1.1\r\n\r\n".data
      = some (response_ok "TOPSECRET".data "text/plain".data) ∧
    handle_request fsEscape "GET /../secret HTTP/1.1\r\n\r\n".data
      ≠ some response_not_found :=
  ⟨rfl, by decide⟩

/-- C2, counterexample: the request `GET /\r\n\r\n` has a two-token
request line; parsing raises `ValueError` (not the `NotImplementedError`
"method not allowed" signal), the per-request handler catches neither,
and the server writes nothing — in particular not the 405 response. -/
theorem two_token_line_not_405 :
    parse_request "GET /\r\n\r\n".data = .error .valueError ∧
    handle_request fsEmpty "GET /\r\n\r\n".data = none ∧
    handle_request fsEmpty "GET /\r\n\r\n".data ≠ some response_method_not_allowed :=
  ⟨rfl, rfl, by decide⟩

/-- C3: code_bug — after the peer closes, `recv` returns empty byte
strings forever and the accumulated text never changes, so the read loop
never exits (first conjunct: no fuel bound suffices once the chunks are
exhausted with the terminator still missing); the loop does return as
soon as the terminator arrives (second conjunct). -/
theorem read_loop_spins_on_peer_close :
    (∀ fuel, read_loop fuel ["GET / HTTP/1.1\r\n".data] [] = none) ∧
    read_loop 2 ["GET / HTTP/1.1\r\n".data, "\r\n".data] []
      = some "GET / HTTP/1.1\r\n\r\n".data := by
  constructor
  · intro fuel
    cases fuel with
    | zero => rfl
    | succ n =>
      show read_loop n [] ("GET / HTTP/1.1\r\n".data) = none
      exact read_loop_closed_none _ (by decide) n
  · rfl

/-- C4: code_bug — for an existing regular file with an extension absent
from the MIME table, `guess_type(...)[0]` is `None`, `.encode` raises
`AttributeError`, neither `except` clause catches it, and the server
writes no response at all (no fallback 404). -/
theorem unknown_extension_no_response :
    response_path fsNoExt "/file.xyz".data = .error .attributeError ∧
    handle_request fsNoExt "GET /file.xyz HTTP/1.1\r\n\r\n".data = none :=
  ⟨rfl, rfl⟩

/-- C8: `response_ok` produces exactly the status line, the
`Content-Type` header carrying the mimetype, and a blank line, each
terminated by CRLF, followed by the body with no trailing terminator. -/
theorem response_ok_wire_format (body mimetype : List Char) :
    response_ok body mimetype
      = "HTTP/1.1 200 OK".data ++ CRLF
          ++ ("Content-Type: ".data ++ mimetype) ++ CRLF
          ++ CRLF ++ body := by
  simp [response_ok, joinBy, List.append_assoc]

/-- C2, amended: a request line that does not split into exactly three
space-separated tokens makes `parse_request` fail with `ValueError` (the
tuple unpacking), which neither `except` clause of the per-request
handler catches, so the server writes no response at all (in particular
no 405). -/
theorem bad_token_count_no_response (fs : FileSystem) (request : List Char)
    (h : (splitChar ' ' (takeBefore CRLF request)).length ≠ 3) :
    parse_request request = .error .valueError ∧ handle_request fs request = none := by
  have hparse : parse_request request = .error .valueError := by
    unfold parse_request
    rcases hl : splitChar ' ' (takeBefore CRLF request) with _ | ⟨a, _ | ⟨b, _ | ⟨c, _ | ⟨d, t⟩⟩⟩⟩
    · rfl
    · rfl
    · rfl
    · exact absurd (by rw [hl]; rfl) h
    · rfl
  exact ⟨hparse, by simp [handle_request, hparse]⟩

/-- Closed instance of the amended C2 at the concrete two-token request
`GET /`. -/
theorem bad_token_count_no_response_witness :
    (splitChar ' ' (takeBefore CRLF "GET /\r\n\r\n".data)).length ≠ 3 ∧
    (parse_request "GET /\r\n\r\n".data = .error .valueError ∧
      handle_request fsEmpty "GET /\r\n\r\n".data = none) :=
  ⟨by decide, bad_token_count_no_response fsEmpty _ (by decide)⟩

/-- C5: a well-formed three-token request line whose method token is not
`GET` makes `parse_request` raise the "method not allowed" signal
(`NotImplementedError`), and the server answers with the fixed 405
bytes. -/
theorem non_get_method_gets_405 (fs : FileSystem) (request m p v : List Char)
    (htok : splitChar ' ' (takeBefore CRLF request) = [m, p, v])
    (hm : m ≠ "GET".data) :
    handle_request fs request = some response_method_not_allowed ∧
    response_method_not_allowed
      = "HTTP/1.1 405 Method Not Allowed\r\n\r\nYou can\x27t do that on this server!".data := by
  have hparse : parse_request request = .error .notImplementedError := by
    unfold parse_request
    rw [htok]
    simp [hm]
  exact ⟨by simp [handle_request, hparse], rfl⟩

/-- Closed instance of C5 at the spec scenario `POST / HTTP/1.1`. -/
theorem non_get_method_gets_405_witness :
    splitChar ' ' (takeBefore CRLF "POST / HTTP/1.1\r\n\r\n".data)
      = ["POST".data, "/".data, "HTTP/1.1".data] ∧
    "POST".data ≠ "GET".data ∧
    handle_request fsEmpty "POST / HTTP/1.1\r\n\r\n".data = some response_method_not_allowed :=
  ⟨by decide, by decide,
   (non_get_method_gets_405 fsEmpty "POST / HTTP/1.1\r\n\r\n".data
      "POST".data "/".data "HTTP/1.1".data (by decide) (by decide)).1⟩

/-- C7: a path whose resolution is an existing directory is answered
with the CRLF-joined `listdir` names as body and mimetype
`text/plain`. -/
theorem directory_listing_ok (fs : FileSystem) (p : List Char)
    (hex : fs.fsExists (fs.root ++ p) = true)
    (hdir : fs.isdir (fs.root ++ p) = true) :
    response_path fs p
      = .ok (joinBy CRLF (fs.listdir (fs.root ++ p)), "text/plain".data) := by
  unfold response_path
  simp [hex, hdir]

/-- Closed instance of C7 at the spec scenario: a root directory holding
`a.html` and `b.png` lists as `a.html\r\nb.png`. -/
theorem directory_listing_ok_witness :
    fsDir.fsExists (fsDir.root ++ "/".data) = true ∧
    fsDir.isdir (fsDir.root ++ "/".data) = true ∧
    response_path fsDir "/".data
      = .ok (joinBy CRLF (fsDir.listdir (fsDir.root ++ "/".data)), "text/plain".data) ∧
    joinBy CRLF (fsDir.listdir (fsDir.root ++ "/".data)) = "a.html\r\nb.png".data :=
  ⟨by decide, by decide, directory_listing_ok fsDir _ (by decide) (by decide), rfl⟩

/-- C10, amended: the parser copies the second space-token of the
request line into the path verbatim and enforces nothing about it, so
the parsed path begins with `/` exactly when the token the client sent
does; for a `GET` line whose second token begins with `/` the returned
path begins with `/`. -/
theorem parse_path_verbatim_slash (request m p v : List Char)
    (htok : splitChar ' ' (takeBefore CRLF request) = [m, p, v])
    (hm : m = "GET".data) (hp : p.head? = some ('/')) :
    parse_request request = .ok p ∧ p.head? = some ('/') := by
  refine ⟨?_, hp⟩
  unfold parse_request
  rw [htok]
  simp [hm]

/-- Closed instance of the amended C10 at `GET / HTTP/1.1`. -/
theorem parse_path_verbatim_slash_witness :
    splitChar ' ' (takeBefore CRLF "GET / HTTP/1.1\r\n\r\n".data)
      = ["GET".data, "/".data, "HTTP/1.1".data] ∧
    "/".data.head? = some ('/') ∧
    (parse_request "GET / HTTP/1.1\r\n\r\n".data = .ok "/".data ∧
      "/".data.head? = some ('/')) :=
  ⟨by decide, by decide,
   parse_path_verbatim_slash "GET / HTTP/1.1\r\n\r\n".data
      "GET".data "/".data "HTTP/1.1".data (by decide) rfl (by decide)⟩

/-- For a path free of spaces and carriage returns, a standard request
line parses to exactly that path. -/
theorem parse_request_get (p : List Char)
    (hsp : ∀ a ∈ p, a ≠ ' ') (hcr : ∀ a ∈ p, a ≠ '\r') :
    parse_request ("GET ".data ++ p ++ " HTTP/1.1\r\n\r\n".data) = .ok p := by
  have hline : ∀ c ∈ ("GET ".data ++ p ++ " HTTP/1.1".data), c ≠ '\r' := by
    have h1 : ∀ c ∈ "GET ".data, c ≠ '\r' := by decide
    have h2 : ∀ c ∈ " HTTP/1.1".data, c ≠ '\r' := by decide
    intro c hc
    simp only [List.mem_append] at hc
    rcases hc with (hc | hc) | hc
    · exact h1 c hc
    · exact hcr c hc
    · exact h2 c hc
  have hreq : "GET ".data ++ p ++ " HTTP/1.1\r\n\r\n".data
      = ("GET ".data ++ p ++ " HTTP/1.1".data) ++ (CRLF ++ CRLF) := by
    have he : " HTTP/1.1\r\n\r\n".data = " HTTP/1.1".data ++ (CRLF ++ CRLF) := by decide
    rw [he]
    simp [List.append_assoc]
  have htake : takeBefore CRLF ("GET ".data ++ p ++ " HTTP/1.1\r\n\r\n".data)
      = "GET ".data ++ p ++ " HTTP/1.1".data := by
    rw [hreq]
    unfold takeBefore
    rw [splitFirst_noEarly CRLF CRLF _ (by decide)
      (noEarlyFrom_noCR ['\n'] (CRLF ++ CRLF) _ hline)]
  have htok : splitChar ' ' ("GET ".data ++ p ++ " HTTP/1.1".data)
      = ["GET".data, p, "HTTP/1.1".data] := by
    have e1 : "GET ".data ++ p ++ " HTTP/1.1".data
        = "GET".data ++ (' ' :: (p ++ (' ' :: "HTTP/1.1".data))) := by
      have e1a : "GET ".data = "GET".data ++ [' '] := by decide
      have e1b : " HTTP/1.1".data = ' ' :: "HTTP/1.1".data := by decide
      rw [e1a, e1b]
      simp [List.append_assoc]
    rw [e1]
    rw [splitChar_append_nomem ' ' ("GET".data) _ (by decide)]
    rw [splitChar_cons_self]
    rw [splitChar_append_nomem ' ' p _ hsp]
    rw [splitChar_cons_self]
    rw [show splitChar ' ' "HTTP/1.1".data = ["HTTP/1.1".data] from by decide]
    simp [List.modifyHead]
  unfold parse_request
  rw [htake, htok]
  simp

/-- C6: a request `GET <path> HTTP/1.1\r\n\r\n` whose path resolves to
an existing regular file with a recognized extension is answered with
the 200 response whose body is the file's exact bytes and whose
`Content-Type` is the mapping of its extension. -/
theorem get_existing_file_ok (fs : FileSystem) (p mt : List Char)
    (hsp : ∀ a ∈ p, a ≠ ' ') (hcr : ∀ a ∈ p, a ≠ '\r')
    (hex : fs.fsExists (fs.root ++ p) = true)
    (hdir : fs.isdir (fs.root ++ p) = false)
    (hmt : fs.guessType (fs.root ++ p) = some mt) :
    handle_request fs ("GET ".data ++ p ++ " HTTP/1.1\r\n\r\n".data)
      = some (response_ok (fs.readFile (fs.root ++ p)) mt) := by
  have hparse := parse_request_get p hsp hcr
  have hpath : response_path fs p = .ok (fs.readFile (fs.root ++ p), mt) := by
    unfold response_path
    simp [hex, hdir, hmt]
  unfold handle_request
  rw [hparse]
  dsimp only
  rw [hpath]

/-- Closed instance of C6: serving `/index.html` out of `fsHtml`. -/
theorem get_existing_file_ok_witness :
    (∀ a ∈ "/index.html".data, a ≠ ' ') ∧
    (∀ a ∈ "/index.html".data, a ≠ '\r') ∧
    fsHtml.fsExists (fsHtml.root ++ "/index.html".data) = true ∧
    fsHtml.isdir (fsHtml.root ++ "/index.html".data) = false ∧
    fsHtml.guessType (fsHtml.root ++ "/index.html".data) = some "text/html".data ∧
    handle_request fsHtml ("GET ".data ++ "/index.html".data ++ " HTTP/1.1\r\n\r\n".data)
      = some (response_ok (fsHtml.readFile (fsHtml.root ++ "/index.html".data))
          "text/html".data) :=
  ⟨by decide, by decide, by decide, by decide, rfl,
   get_existing_file_ok fsHtml "/index.html".data "text/html".data
     (by decide) (by decide) (by decide) (by decide) rfl⟩

/-- C9, amended: for every body and every mimetype containing no CRLF,
parsing the bytes of `response_ok` back (splitting headers from body at
the first blank line) recovers the status line, the original mimetype
and the original body exactly. -/
theorem roundtrip_ok_recovers (body mt : List Char) (hm : occursB CRLF mt = false) :
    parse_ok_response (response_ok body mt)
      = some ("HTTP/1.1 200 OK".data, mt, body) := by
  have hshape : response_ok body mt
      = ("HTTP/1.1 200 OK\r\nContent-Type: ".data ++ mt) ++ (CRLF2 ++ body) := by
    have hp : "HTTP/1.1 200 OK\r\nContent-Type: ".data
        = "HTTP/1.1 200 OK".data ++ CRLF ++ "Content-Type: ".data := by decide
    have h2 : CRLF2 = CRLF ++ CRLF := by decide
    rw [hp, h2]
    simp [response_ok, joinBy, List.append_assoc]
  have hno1 : noEarlyFrom CRLF2 (CRLF2 ++ body)
      ("HTTP/1.1 200 OK\r\nContent-Type: ".data ++ mt) = true := by
    rw [noEarlyFrom_append, Bool.and_eq_true]
    refine ⟨?_, noEarlyFrom_CRLF2_of_noCRLF mt hm body⟩
    have hpre : "HTTP/1.1 200 OK\r\nContent-Type: ".data
        = "HTTP/1.1 200 OK".data ++ (CRLF ++ "Content-Type: ".data) := by decide
    rw [hpre, noEarlyFrom_append, noEarlyFrom_append]
    simp only [Bool.and_eq_true]
    refine ⟨noEarlyFrom_noCR ['\n', '\r', '\n'] _ _ (by decide),
      ?_, noEarlyFrom_noCR ['\n', '\r', '\n'] _ _ (by decide)⟩
    have hsB : "Content-Type: ".data = 'C' :: "ontent-Type: ".data := by decide
    have hb1 : ('\r' == 'C') = false := by decide
    have hb2 : ('\r' == '\n') = false := by decide
    simp [CRLF, CRLF2, noEarlyFrom, leads, hsB, hb1, hb2]
  have houter : splitFirst CRLF2
      (("HTTP/1.1 200 OK\r\nContent-Type: ".data ++ mt) ++ (CRLF2 ++ body))
      = some ("HTTP/1.1 200 OK\r\nContent-Type: ".data ++ mt, body) :=
    splitFirst_noEarly CRLF2 body _ (by decide) hno1
  have hinner : splitFirst CRLF ("HTTP/1.1 200 OK\r\nContent-Type: ".data ++ mt)
      = some ("HTTP/1.1 200 OK".data, "Content-Type: ".data ++ mt) := by
    have hpre : "HTTP/1.1 200 OK\r\nContent-Type: ".data ++ mt
        = "HTTP/1.1 200 OK".data ++ (CRLF ++ ("Content-Type: ".data ++ mt)) := by
      have hp : "HTTP/1.1 200 OK\r\nContent-Type: ".data
          = "HTTP/1.1 200 OK".data ++ CRLF ++ "Content-Type: ".data := by decide
      rw [hp]
      simp [List.append_assoc]
    rw [hpre]
    exact splitFirst_noEarly CRLF ("Content-Type: ".data ++ mt) _ (by decide)
      (noEarlyFrom_noCR ['\n'] _ _ (by decide))
  have hct : leads "Content-Type: ".data ("Content-Type: ".data ++ mt) = true :=
    leads_append_self _ _
  have hdrop : ("Content-Type: ".data ++ mt).drop "Content-Type: ".data.length = mt :=
    List.drop_left _ _
  unfold parse_ok_response
  rw [hshape, houter]
  dsimp only
  rw [hinner]
  dsimp only
  rw [if_pos hct, hdrop]

/-- Closed instance of the amended C9 at an ordinary mimetype. -/
theorem roundtrip_ok_recovers_witness :
    occursB CRLF "text/html".data = false ∧
    parse_ok_response (response_ok "<p>x</p>".data "text/html".data)
      = some ("HTTP/1.1 200 OK".data, "text/html".data, "<p>x</p>".data) :=
  ⟨by decide, roundtrip_ok_recovers "<p>x</p>".data "text/html".data (by decide)⟩

/-- C9, counterexample: a mimetype containing a CRLF (here
`a\r\n\r\nb`) shifts the first blank line, so parsing the produced
bytes back recovers neither the original mimetype nor the original
body. -/
theorem roundtrip_fails_crlf_mimetype :
    parse_ok_response (response_ok "B".data "a\r\n\r\nb".data)
      = some ("HTTP/1.1 200 OK".data, "a".data, "b\r\n\r\nB".data) ∧
    "a".data ≠ "a\r\n\r\nb".data ∧
    "b\r\n\r\nB".data ≠ "B".data :=
  ⟨rfl, by decide, by decide⟩

/-- C10, counterexample: parsing validates nothing about the path — the
request `GET foo HTTP/1.1` parses successfully and returns the path
`foo`, whose first character is not `/`. -/
theorem parse_path_no_slash_check :
    parse_request "GET foo HTTP/1.1\r\n\r\n".data = .ok "foo".data ∧
    "foo".data.head? ≠ some ('/') :=
  ⟨rfl, by decide⟩

end HttpSrv
